import Mathlib

/-!
Verification of the clangd type-hierarchy resolution engine.

The engine under study computes ancestor and descendant trees of record
types (getTypeHierarchy, typeParents, findRecordTypeAt,
resolveTypeHierarchy, subTypes).  The implementation itself is not part
of the available sources (only its unit tests are), so the definitions
below are modelled from the design specification, with behaviour pinned
down by the scenarios the in-repo unit tests assert.
-/

namespace TypeHierarchyModel

/-- Stable cross-session identity of a declaration. -/
abbrev DeclId := Nat

/-- Symbol kind of a record declaration. -/
inductive DeclKind where
  | Struct
  | Class
deriving DecidableEq, Repr

/-- Modelled from the spec: template declaration identity is a tagged
variant distinguishing a non-template record, a primary template
pattern, an explicit (programmer-written) full specialization with
concrete argument text, and an implicit instantiation with concrete
argument text.  Keyed for lookup by qualified name plus argument text. -/
inductive TemplateId where
  | NotTemplate
  | Primary
  | ExplicitSpec (args : String)
  | ImplicitInst (args : String)
deriving DecidableEq, Repr

/-- Modelled from the spec: a declaration is an opaque identity for a
named record type, a template pattern, or a specific instantiation.
Attributes: qualified name, kind, template identity, completeness flag
(whether a definition is available), validity flag (whether an
instantiation succeeded; the in-repo test RecursiveHierarchyUnbounded
exercises an invalid instantiation), a link from an instantiation to its
primary template pattern, and a selection (name-token) range. -/
structure Decl where
  id : DeclId
  name : String
  kind : DeclKind
  templateId : TemplateId
  complete : Bool
  valid : Bool
  primaryOf : Option DeclId
  selRange : Nat
deriving DecidableEq, Repr

/-- Display name of a declaration: specializations and instantiations
carry their template argument text in the printed name. -/
def Decl.displayName (d : Decl) : String :=
  match d.templateId with
  | TemplateId.ExplicitSpec a => d.name ++ a
  | TemplateId.ImplicitInst a => d.name ++ a
  | _ => d.name

/-- Modelled from the spec: one written base reference of a record
declaration, the raw type reference plus dependent/template flags the
program representation exposes. -/
inductive BaseRef where
  /-- base already tied to a concrete record declaration
  (a non-template base, or a successfully resolved one) -/
  | record (i : DeclId)
  /-- template base named with concrete arguments -/
  | templateConcrete (tmplName : String) (args : String)
  /-- base dependent on the enclosing template's own parameters;
  carries the identity of the primary template pattern -/
  | templateDependent (primary : DeclId)
  /-- base whose type cannot be tied to any record declaration: an
  opaque dependent member-type expression or a bare template parameter -/
  | opaqueDependent
deriving DecidableEq, Repr

/-- Modelled from the spec: the syntactic entity found at a source
position, as classified by the position-resolution policy. -/
inductive PosEntity where
  /-- a type name -/
  | typeName (i : DeclId)
  /-- a variable of record type -/
  | varOfRecordType (i : DeclId)
  /-- a member-function-call reference, resolving to the owning class -/
  | memberCall (owner : DeclId)
  /-- a pointer or reference to a record type, resolving to the pointee -/
  | pointerTo (i : DeclId)
  /-- an alias, resolving to the underlying record type -/
  | aliasOf (i : DeclId)
  /-- a data-member access or data-member declaration; the member's own
  type (when it is a record) and the owning record are both recorded -/
  | dataMember (memberType : Option DeclId) (owner : DeclId)
  /-- an entity of non-record type -/
  | nonRecord
deriving DecidableEq, Repr

/-- Modelled from the spec: the program representation consumed by the
resolver, as an abstract capability viewed through finite tables: the
known declarations, the written base-reference lists, and the entity
classification at each source position. -/
structure Program where
  decls : List Decl
  baseLists : List (DeclId × List BaseRef)
  positions : List (Nat × PosEntity)

/-- Look up a declaration by identity. -/
def findDecl (p : Program) (i : DeclId) : Option Decl :=
  p.decls.find? (fun d => d.id == i)

/-- directBasesOf capability: written base references of a declaration. -/
def basesOf (p : Program) (i : DeclId) : List BaseRef :=
  ((p.baseLists.find? (fun e => e.1 == i)).map (fun e => e.2)).getD []

/-- Entity classification at a source position. -/
def entityAt (p : Program) (pos : Nat) : Option PosEntity :=
  (p.positions.find? (fun e => e.1 == pos)).map (fun e => e.2)

/-- Look up the explicit full specialization of a template with the
given qualified name and argument text, when one exists. -/
def findExplicitSpec (p : Program) (n a : String) : Option Decl :=
  p.decls.find? (fun d =>
    d.name == n && d.templateId == TemplateId.ExplicitSpec a)

/-- Look up the implicit instantiation of a template with the given
qualified name and argument text, when the program representation has
materialized one. -/
def findImplicitInst (p : Program) (n a : String) : Option Decl :=
  p.decls.find? (fun d =>
    d.name == n && d.templateId == TemplateId.ImplicitInst a)

/-- Primary template pattern of an instantiation, when linked. -/
def patternOf (p : Program) (d : Decl) : Option Decl :=
  d.primaryOf.bind (findDecl p)

/-- Modelled from the spec: resolve one written base reference to the
base declaration it contributes, or to nothing.  Rule order: a base
already tied to a record declaration is used directly; a template base
with concrete arguments uses the matching explicit full specialization
when one exists and otherwise falls back to the implicit instantiation
of the primary template with those arguments; a base dependent on the
enclosing template's own parameters substitutes the primary template
pattern as a best-effort stand-in; an opaque dependent base contributes
no edge. -/
def resolveBaseRef (p : Program) : BaseRef → Option Decl
  | BaseRef.record i => findDecl p i
  | BaseRef.templateConcrete n a =>
    match findExplicitSpec p n a with
    | some d => some d
    | none => findImplicitInst p n a
  | BaseRef.templateDependent primary => findDecl p primary
  | BaseRef.opaqueDependent => none

/-- Modelled from the spec: immediate base declarations of one record
declaration, preserving written base-list order.  An invalid
instantiation (instantiation that did not succeed, per the in-repo test
RecursiveHierarchyUnbounded) falls back to its primary template pattern
before bases are read; an incomplete (forward-declared only)
declaration has no known bases and yields the empty list, not an
error. -/
def typeParents (p : Program) (d0 : Decl) : List Decl :=
  let d := if d0.valid then d0 else (patternOf p d0).getD d0
  if d.complete then (basesOf p d.id).filterMap (resolveBaseRef p) else []

/-- Modelled from the spec: candidate record-type declarations at a
source position.  A type name or a variable of record type resolves to
that record type; a member-function call resolves to the owning class;
pointers, references and aliases resolve through to the underlying
record type; a data-member access or declaration resolves to nothing
(the engine declines to guess between the member's own type and the
owner type); anything else resolves to nothing. -/
def findRecordTypeAt (p : Program) (pos : Nat) : List Decl :=
  match entityAt p pos with
  | some (PosEntity.typeName i) => (findDecl p i).toList
  | some (PosEntity.varOfRecordType i) => (findDecl p i).toList
  | some (PosEntity.memberCall owner) => (findDecl p owner).toList
  | some (PosEntity.pointerTo i) => (findDecl p i).toList
  | some (PosEntity.aliasOf i) => (findDecl p i).toList
  | some (PosEntity.dataMember _ _) => []
  | some PosEntity.nonRecord => []
  | none => []

/-- Modelled from the spec: a hierarchy node with a name, kind,
declaration identity, selection range, optional parent list, optional
child list, and auxiliary resolve data (identities of immediate
parents) used by the one-level convenience queries.  An absent list
means not yet resolved; an empty list means resolved with none. -/
inductive TypeHierarchyItem where
  | mk (name : String) (kind : DeclKind) (declId : DeclId)
      (selRange : Nat)
      (parents : Option (List TypeHierarchyItem))
      (children : Option (List TypeHierarchyItem))
      (dataParents : Option (List DeclId)) : TypeHierarchyItem

/-- Displayed name of a hierarchy node. -/
def TypeHierarchyItem.name : TypeHierarchyItem → String
  | TypeHierarchyItem.mk n _ _ _ _ _ _ => n

/-- Symbol kind of a hierarchy node. -/
def TypeHierarchyItem.kind : TypeHierarchyItem → DeclKind
  | TypeHierarchyItem.mk _ k _ _ _ _ _ => k

/-- Declaration identity of a hierarchy node. -/
def TypeHierarchyItem.declId : TypeHierarchyItem → DeclId
  | TypeHierarchyItem.mk _ _ i _ _ _ _ => i

/-- Selection range of a hierarchy node. -/
def TypeHierarchyItem.selRange : TypeHierarchyItem → Nat
  | TypeHierarchyItem.mk _ _ _ r _ _ _ => r

/-- Parent list of a hierarchy node; none means not yet resolved. -/
def TypeHierarchyItem.parents :
    TypeHierarchyItem → Option (List TypeHierarchyItem)
  | TypeHierarchyItem.mk _ _ _ _ ps _ _ => ps

/-- Child list of a hierarchy node; none means not yet resolved. -/
def TypeHierarchyItem.children :
    TypeHierarchyItem → Option (List TypeHierarchyItem)
  | TypeHierarchyItem.mk _ _ _ _ _ cs _ => cs

/-- Resolve data of a hierarchy node: identities of immediate parents. -/
def TypeHierarchyItem.dataParents :
    TypeHierarchyItem → Option (List DeclId)
  | TypeHierarchyItem.mk _ _ _ _ _ _ dp => dp

/-- Replace the child list of a hierarchy node. -/
def TypeHierarchyItem.withChildren :
    TypeHierarchyItem → Option (List TypeHierarchyItem) → TypeHierarchyItem
  | TypeHierarchyItem.mk n k i r ps _ dp, cs =>
    TypeHierarchyItem.mk n k i r ps cs dp

/-- Replace the resolve data of a hierarchy node. -/
def TypeHierarchyItem.withDataParents :
    TypeHierarchyItem → Option (List DeclId) → TypeHierarchyItem
  | TypeHierarchyItem.mk n k i r ps cs _, dp =>
    TypeHierarchyItem.mk n k i r ps cs dp

/-- Modelled from the spec: the ancestor walk.  From the current
declaration, each immediate base becomes a parent node whose own
parents are resolved recursively; depth is unbounded except for the
cycle bound.  Cycle bound: if the next resolution step would repeat the
identity immediately preceding it on the path - the signature of a
self-referential template whose instantiation argument cannot be
reduced further - the repeated node is surfaced one further level with
resolved-empty parents and the walk does not recurse a third time.  The
fuel argument only bounds pathological programs the specification
leaves undefined (mutual cycles longer than one step); the
orchestration below supplies fuel exceeding the number of declarations,
so fuel is never exhausted on the programs of interest. -/
def fillSuperTypes (p : Program) : Nat → Decl → List TypeHierarchyItem
  | 0, _ => []
  | fuel + 1, d =>
    (typeParents p d).map (fun parent =>
      TypeHierarchyItem.mk parent.displayName parent.kind parent.id
        parent.selRange
        (some (if parent.id = d.id then [] else fillSuperTypes p fuel parent))
        none none)

/-- Modelled from the spec: an indexed symbol exposing qualified name,
kind, identity and selection range. -/
structure Sym where
  id : DeclId
  name : String
  kind : DeclKind
  selRange : Nat
deriving DecidableEq, Repr

/-- Modelled from the spec: the external symbol index, wrapping the
subtype-relation query: a batch of directed is-base-of facts, each
pairing a subject (base) identity with the symbol of a declaration
directly deriving from it. -/
structure Index where
  syms : List Sym
  rels : List (DeclId × Sym)

/-- Symbols the index knows to directly derive from the subject. -/
def subtypesOf (ix : Index) (subject : DeclId) : List Sym :=
  (ix.rels.filter (fun r => r.1 == subject)).map (fun r => r.2)

/-- Modelled from the spec: the descendant walk.  Query direct subtypes
of the subject from the index and descend up to the requested depth;
a node whose further expansion would exceed the requested depth is left
with children marked unresolved (and with parents unresolved: subtype
nodes come from the index, not from the program representation). -/
def fillSubTypes (ix : Index) : Nat → DeclId → List TypeHierarchyItem
  | 0, _ => []
  | levels + 1, subject =>
    (subtypesOf ix subject).map (fun s =>
      TypeHierarchyItem.mk s.name s.kind s.id s.selRange none
        (if 0 < levels then some (fillSubTypes ix levels s.id) else none)
        none)

/-- Direction of a hierarchy query. -/
inductive Direction where
  | Parents
  | Children
  | Both
deriving DecidableEq, Repr

/-- Modelled from the spec: full-tree construction.  One root node per
record declaration found at the position.  The parents of the root are
always resolved to full ancestor depth from the program representation,
independent of the requested depth; children are resolved through the
index only when the direction requests descendants and the requested
depth is positive, and degrade to not-resolved when no index is
supplied. -/
def getTypeHierarchy (p : Program) (pos : Nat) (resolveLevels : Nat)
    (dir : Direction) (index : Option Index) : List TypeHierarchyItem :=
  (findRecordTypeAt p pos).map (fun d =>
    TypeHierarchyItem.mk d.displayName d.kind d.id d.selRange
      (some (fillSuperTypes p (p.decls.length + 1) d))
      (if (dir = Direction.Children ∨ dir = Direction.Both)
          ∧ 0 < resolveLevels then
        match index with
        | some ix => some (fillSubTypes ix resolveLevels d.id)
        | none => none
      else none)
      none)

/-- Modelled from the spec: lazy expansion of an existing node, reusing
the descendant algorithm anchored at this node; the node's other fields
are untouched. -/
def resolveTypeHierarchy (item : TypeHierarchyItem) (resolveLevels : Nat)
    (dir : Direction) (ix : Index) : TypeHierarchyItem :=
  if dir = Direction.Children ∧ 0 < resolveLevels then
    item.withChildren (some (fillSubTypes ix resolveLevels item.declId))
  else item

/-- Modelled from the spec: one-level child query.  Direct subtypes of
the node are returned as fresh nodes, each carrying resolve data
populated with the identity of the queried node among its immediate
parents. -/
def subTypes (item : TypeHierarchyItem) (ix : Index) :
    List TypeHierarchyItem :=
  (fillSubTypes ix 1 item.declId).map (fun c =>
    c.withDataParents (some [item.declId]))

/-! Concrete program for the self-referential template scenario
(struct S with template parameter N deriving from S at N + 1, queried
at the invalid implicit instantiation at argument 0). -/

/-- Primary template pattern of the self-referential template S. -/
def sPattern : Decl :=
  Decl.mk 0 "S" DeclKind.Struct TemplateId.Primary true true none 10

/-- Invalid implicit instantiation of S at argument 0: the
instantiation depth limit was exceeded, so it is incomplete and
invalid, linked to its primary pattern. -/
def s0inst : Decl :=
  Decl.mk 1 "S" DeclKind.Struct (TemplateId.ImplicitInst "<0>")
    false false (some 0) 11

/-- Program of the self-referential scenario: the pattern's written
base is a dependent reference to S itself; the query position names the
instantiation at argument 0. -/
def unboundedProg : Program :=
  Program.mk [sPattern, s0inst]
    [(0, [BaseRef.templateDependent 0])]
    [(5, PosEntity.typeName 1)]

/-- Expected innermost node of the walk: the second occurrence of the
pattern S, surfaced with resolved-empty parents. -/
def uItem2 : TypeHierarchyItem :=
  TypeHierarchyItem.mk "S" DeclKind.Struct 0 10 (some []) none none

/-- Expected middle node: the first occurrence of the pattern S, whose
parent is the repeated occurrence. -/
def uItem1 : TypeHierarchyItem :=
  TypeHierarchyItem.mk "S" DeclKind.Struct 0 10 (some [uItem2]) none none

/-- Expected root node of the walk at the invalid instantiation. -/
def uRoot : TypeHierarchyItem :=
  TypeHierarchyItem.mk "S<0>" DeclKind.Struct 1 11 (some [uItem1])
    none none

/-- C1: the ancestor walk at the self-referential template queried at
the irreducible instantiation produces a finite deterministic chain:
the root S at argument 0 has parent S, whose parent is S again with
resolved-empty parents, and there is no third recursion. -/
theorem c1_recursive_walk_bounded :
    getTypeHierarchy unboundedProg 5 0 Direction.Parents none = [uRoot]
    ∧ uRoot.parents = some [uItem1]
    ∧ uItem1.parents = some [uItem2]
    ∧ uItem2.parents = some ([] : List TypeHierarchyItem) :=
  ⟨rfl, rfl, rfl, rfl⟩

/-! Concrete program for the multiple-inheritance diamond scenario
(Parent3 deriving from Parent2; Child deriving from Parent1 and
Parent3, in that written order). -/

/-- Record declaration Parent1 of the diamond scenario. -/
def parent1Decl : Decl :=
  Decl.mk 1 "Parent1" DeclKind.Struct TemplateId.NotTemplate
    true true none 21

/-- Record declaration Parent2 of the diamond scenario. -/
def parent2Decl : Decl :=
  Decl.mk 2 "Parent2" DeclKind.Struct TemplateId.NotTemplate
    true true none 22

/-- Record declaration Parent3 of the diamond scenario, deriving from
Parent2. -/
def parent3Decl : Decl :=
  Decl.mk 3 "Parent3" DeclKind.Struct TemplateId.NotTemplate
    true true none 23

/-- Record declaration Child of the diamond scenario, deriving from
Parent1 and Parent3 in that written order. -/
def childDecl : Decl :=
  Decl.mk 4 "Child" DeclKind.Struct TemplateId.NotTemplate
    true true none 24

/-- Program of the diamond scenario. -/
def diamondProg : Program :=
  Program.mk [parent1Decl, parent2Decl, parent3Decl, childDecl]
    [(3, [BaseRef.record 2]), (4, [BaseRef.record 1, BaseRef.record 3])]
    [(7, PosEntity.typeName 4)]

/-! Concrete program for the shared-ancestor diamond (a common base B
reachable through two branches P1 and P2 of C). -/

/-- Common base declaration B of the shared-ancestor diamond. -/
def sharedBDecl : Decl :=
  Decl.mk 0 "B" DeclKind.Struct TemplateId.NotTemplate true true none 30

/-- Branch declaration P1, deriving from B. -/
def sharedP1Decl : Decl :=
  Decl.mk 1 "P1" DeclKind.Struct TemplateId.NotTemplate true true none 31

/-- Branch declaration P2, deriving from B. -/
def sharedP2Decl : Decl :=
  Decl.mk 2 "P2" DeclKind.Struct TemplateId.NotTemplate true true none 32

/-- Declaration C deriving from both branches P1 and P2. -/
def sharedCDecl : Decl :=
  Decl.mk 3 "C" DeclKind.Struct TemplateId.NotTemplate true true none 33

/-- Program of the shared-ancestor diamond. -/
def sharedProg : Program :=
  Program.mk [sharedBDecl, sharedP1Decl, sharedP2Decl, sharedCDecl]
    [(1, [BaseRef.record 0]), (2, [BaseRef.record 0]),
      (3, [BaseRef.record 1, BaseRef.record 2])]
    [(9, PosEntity.typeName 3)]

/-- Expected node for the common base B with resolved-empty parents. -/
def sharedBItem : TypeHierarchyItem :=
  TypeHierarchyItem.mk "B" DeclKind.Struct 0 30 (some []) none none

/-- Expected node for branch P1, with B as parent. -/
def sharedP1Item : TypeHierarchyItem :=
  TypeHierarchyItem.mk "P1" DeclKind.Struct 1 31 (some [sharedBItem])
    none none

/-- Expected node for branch P2, with B as parent. -/
def sharedP2Item : TypeHierarchyItem :=
  TypeHierarchyItem.mk "P2" DeclKind.Struct 2 32 (some [sharedBItem])
    none none

/-- Expected root node for C: the common ancestor B appears once under
each branch it is reachable from. -/
def sharedCItem : TypeHierarchyItem :=
  TypeHierarchyItem.mk "C" DeclKind.Struct 3 33
    (some [sharedP1Item, sharedP2Item]) none none

/-- C3: typeParents returns immediate bases in written base-list order;
in the diamond hierarchy the parents of Child are Parent1 then Parent3
and the parent of Parent3 is Parent2; and in a shared-ancestor diamond
the common ancestor appears on every branch it is reachable from
instead of being deduplicated across branches. -/
theorem c3_diamond_written_order :
    typeParents diamondProg childDecl = [parent1Decl, parent3Decl]
    ∧ typeParents diamondProg parent3Decl = [parent2Decl]
    ∧ typeParents diamondProg parent1Decl = []
    ∧ getTypeHierarchy sharedProg 9 0 Direction.Parents none
        = [sharedCItem]
    ∧ sharedCItem.parents = some [sharedP1Item, sharedP2Item]
    ∧ sharedP1Item.parents = some [sharedBItem]
    ∧ sharedP2Item.parents = some [sharedBItem] :=
  ⟨rfl, rfl, rfl, rfl, rfl, rfl, rfl⟩

/-! Concrete program for the template-specialization scenario: a
primary template Parent, an explicit full specialization of Parent at
int, the implicit instantiation of Parent at float, and two children
deriving from Parent at float and Parent at int respectively. -/

/-- Primary template pattern Parent. -/
def parentPattern : Decl :=
  Decl.mk 0 "Parent" DeclKind.Struct TemplateId.Primary true true none 40

/-- Explicit full specialization of Parent at int. -/
def parentIntSpec : Decl :=
  Decl.mk 1 "Parent" DeclKind.Struct (TemplateId.ExplicitSpec "<int>")
    true true (some 0) 41

/-- Implicit instantiation of Parent at float, materialized by the
program representation. -/
def parentFloatInst : Decl :=
  Decl.mk 2 "Parent" DeclKind.Struct (TemplateId.ImplicitInst "<float>")
    true true (some 0) 42

/-- Declaration Child1, deriving from Parent at float (no explicit
specialization exists for that argument). -/
def specChild1Decl : Decl :=
  Decl.mk 3 "Child1" DeclKind.Struct TemplateId.NotTemplate
    true true none 43

/-- Declaration Child2, deriving from Parent at int (an explicit
specialization exists for that argument). -/
def specChild2Decl : Decl :=
  Decl.mk 4 "Child2" DeclKind.Struct TemplateId.NotTemplate
    true true none 44

/-- Program of the template-specialization scenario. -/
def spec1Prog : Program :=
  Program.mk
    [parentPattern, parentIntSpec, parentFloatInst, specChild1Decl,
      specChild2Decl]
    [(3, [BaseRef.templateConcrete "Parent" "<float>"]),
      (4, [BaseRef.templateConcrete "Parent" "<int>"])]
    []

/-- C4: a base naming a template with concrete arguments resolves to
the matching explicit full specialization when one exists (Child2 gets
the specialization of Parent at int, not the primary template), and
otherwise to the implicit instantiation of the primary template with
those arguments (Child1 gets the implicit instantiation of Parent at
float). -/
theorem c4_template_spec_resolution :
    typeParents spec1Prog specChild2Decl = [parentIntSpec]
    ∧ parentIntSpec.templateId = TemplateId.ExplicitSpec "<int>"
    ∧ typeParents spec1Prog specChild1Decl = [parentFloatInst]
    ∧ parentFloatInst.templateId = TemplateId.ImplicitInst "<float>"
    ∧ parentFloatInst.primaryOf = some parentPattern.id
    ∧ parentIntSpec ≠ parentPattern ∧ parentFloatInst ≠ parentPattern :=
  ⟨rfl, rfl, rfl, rfl, rfl, by decide, by decide⟩

/-! Concrete program for the dependent-base scenario: a primary
template Parent, and three template patterns whose written bases are
respectively Parent applied to the enclosing template's own parameter,
a dependent member-type expression, and a bare template parameter. -/

/-- Primary template pattern Parent of the dependent-base scenario. -/
def depParentPattern : Decl :=
  Decl.mk 0 "Parent" DeclKind.Struct TemplateId.Primary true true none 50

/-- Template pattern Child1, whose base is Parent parameterized by the
enclosing template's own parameter. -/
def depChild1Decl : Decl :=
  Decl.mk 1 "Child1" DeclKind.Struct TemplateId.Primary true true none 51

/-- Template pattern Child2, whose base is an opaque dependent
member-type expression. -/
def depChild2Decl : Decl :=
  Decl.mk 2 "Child2" DeclKind.Struct TemplateId.Primary true true none 52

/-- Template pattern Child3, whose base is a bare template parameter
used directly as a base. -/
def depChild3Decl : Decl :=
  Decl.mk 3 "Child3" DeclKind.Struct TemplateId.Primary true true none 53

/-- Program of the dependent-base scenario. -/
def depProg : Program :=
  Program.mk
    [depParentPattern, depChild1Decl, depChild2Decl, depChild3Decl]
    [(1, [BaseRef.templateDependent 0]),
      (2, [BaseRef.opaqueDependent]),
      (3, [BaseRef.opaqueDependent])]
    []

/-- C5: a base that is a template parameterized by the enclosing
template's own parameter yields the primary template pattern as a
stand-in; a dependent member-type base and a bare template parameter
base contribute no edge and yield an empty parent list. -/
theorem c5_dependent_bases :
    typeParents depProg depChild1Decl = [depParentPattern]
    ∧ depParentPattern.templateId = TemplateId.Primary
    ∧ typeParents depProg depChild2Decl = []
    ∧ typeParents depProg depChild3Decl = [] :=
  ⟨rfl, rfl, rfl, rfl⟩

/-- C6: a source position classified as a data-member access or
data-member declaration resolves to no record declaration at all: the
engine declines to guess between the member's own type and the owning
record type. -/
theorem c6_data_member_resolves_to_nothing
    (p : Program) (pos : Nat) (mty : Option DeclId) (owner : DeclId)
    (h : entityAt p pos = some (PosEntity.dataMember mty owner)) :
    findRecordTypeAt p pos = [] := by
  simp [findRecordTypeAt, h]

/-! Concrete program for the data-member scenario: a record Child2 with
an int field, with positions on the field declaration and on a
field-access expression. -/

/-- Record declaration Child2 of the data-member scenario. -/
def fieldOwnerDecl : Decl :=
  Decl.mk 0 "Child2" DeclKind.Struct TemplateId.NotTemplate
    true true none 60

/-- Program of the data-member scenario: position 1 is the field
declaration, position 2 a field access. -/
def fieldProg : Program :=
  Program.mk [fieldOwnerDecl] []
    [(1, PosEntity.dataMember none 0), (2, PosEntity.dataMember none 0)]

/-- Witness for C6 at the concrete data-member program: both the
declaration position and the access position resolve to nothing. -/
theorem c6_data_member_witness :
    findRecordTypeAt fieldProg 1 = []
    ∧ findRecordTypeAt fieldProg 2 = [] :=
  ⟨c6_data_member_resolves_to_nothing fieldProg 1 none 0 rfl,
    c6_data_member_resolves_to_nothing fieldProg 2 none 0 rfl⟩

/-- C7: a record declaration that is only forward-declared (valid but
incomplete) has no known bases: typeParents yields the empty list, and
being a total function it raises no error. -/
theorem c7_incomplete_record_empty_parents
    (p : Program) (d : Decl) (hv : d.valid = true)
    (hc : d.complete = false) :
    typeParents p d = [] := by
  simp [typeParents, hv, hc]

/-- Forward-declared only record of the incomplete scenario. -/
def incompleteDecl : Decl :=
  Decl.mk 0 "Incomplete" DeclKind.Class TemplateId.NotTemplate
    false true none 70

/-- Program of the incomplete scenario. -/
def incompleteProg : Program :=
  Program.mk [incompleteDecl] [] [(4, PosEntity.typeName 0)]

/-- Witness for C7 at the concrete incomplete-record program. -/
theorem c7_incomplete_record_witness :
    typeParents incompleteProg incompleteDecl = [] :=
  c7_incomplete_record_empty_parents incompleteProg incompleteDecl rfl rfl

/-! Concrete program and index for the lazy-resolution scenario:
Parent with direct subtypes Child1 and Child2, and Child1a deriving
from Child1; the query starts at Parent with resolve depth 1 in the
children direction. -/

/-- Record declaration Parent of the lazy-resolution scenario. -/
def lazyParentDecl : Decl :=
  Decl.mk 0 "Parent" DeclKind.Struct TemplateId.NotTemplate
    true true none 80

/-- Record declaration Child1, deriving from Parent. -/
def lazyChild1Decl : Decl :=
  Decl.mk 1 "Child1" DeclKind.Struct TemplateId.NotTemplate
    true true none 81

/-- Record declaration Child2, deriving from Parent. -/
def lazyChild2Decl : Decl :=
  Decl.mk 2 "Child2" DeclKind.Struct TemplateId.NotTemplate
    true true none 82

/-- Record declaration Child1a, deriving from Child1. -/
def lazyChild1aDecl : Decl :=
  Decl.mk 3 "Child1a" DeclKind.Struct TemplateId.NotTemplate
    true true none 83

/-- Program of the lazy-resolution scenario. -/
def lazyProg : Program :=
  Program.mk
    [lazyParentDecl, lazyChild1Decl, lazyChild2Decl, lazyChild1aDecl]
    [(1, [BaseRef.record 0]), (2, [BaseRef.record 0]),
      (3, [BaseRef.record 1])]
    [(3, PosEntity.typeName 0)]

/-- Indexed symbol for Child1. -/
def lazyChild1Sym : Sym := Sym.mk 1 "Child1" DeclKind.Struct 81

/-- Indexed symbol for Child2. -/
def lazyChild2Sym : Sym := Sym.mk 2 "Child2" DeclKind.Struct 82

/-- Indexed symbol for Child1a. -/
def lazyChild1aSym : Sym := Sym.mk 3 "Child1a" DeclKind.Struct 83

/-- Index of the lazy-resolution scenario: Parent is base of Child1 and
Child2, Child1 is base of Child1a. -/
def lazyIndex : Index :=
  Index.mk
    [Sym.mk 0 "Parent" DeclKind.Struct 80, lazyChild1Sym, lazyChild2Sym,
      lazyChild1aSym]
    [(0, lazyChild1Sym), (0, lazyChild2Sym), (1, lazyChild1aSym)]

/-- Expected frontier node for Child1 after the depth-1 query: both its
parents and its children are left unresolved. -/
def lazyChild1Item : TypeHierarchyItem :=
  TypeHierarchyItem.mk "Child1" DeclKind.Struct 1 81 none none none

/-- Expected frontier node for Child2 after the depth-1 query. -/
def lazyChild2Item : TypeHierarchyItem :=
  TypeHierarchyItem.mk "Child2" DeclKind.Struct 2 82 none none none

/-- Expected frontier node for Child1a after expanding Child1. -/
def lazyChild1aItem : TypeHierarchyItem :=
  TypeHierarchyItem.mk "Child1a" DeclKind.Struct 3 83 none none none

/-- Expected root node of the depth-1 descendant query at Parent. -/
def lazyRootItem : TypeHierarchyItem :=
  TypeHierarchyItem.mk "Parent" DeclKind.Struct 0 80 (some [])
    (some [lazyChild1Item, lazyChild2Item]) none

/-- Expected node for Child1 after lazy expansion at depth 1: its
children are filled in, every other field unchanged. -/
def lazyChild1Expanded : TypeHierarchyItem :=
  TypeHierarchyItem.mk "Child1" DeclKind.Struct 1 81 none
    (some [lazyChild1aItem]) none

/-- C8: the depth-1 descendant query returns one level of children
whose own children are unresolved; lazily expanding Child1 with depth 1
fills exactly its children (all other fields, including its unresolved
parents, preserved), replacing it in the child list leaves the sibling
Child2 untouched, and re-expanding at the same depth is a no-op, so
already-resolved data is never discarded. -/
theorem c8_lazy_expansion_in_place :
    getTypeHierarchy lazyProg 3 1 Direction.Children (some lazyIndex)
      = [lazyRootItem]
    ∧ lazyRootItem.children = some [lazyChild1Item, lazyChild2Item]
    ∧ lazyChild1Item.children = none
    ∧ lazyChild2Item.children = none
    ∧ resolveTypeHierarchy lazyChild1Item 1 Direction.Children lazyIndex
        = lazyChild1Expanded
    ∧ lazyChild1Expanded.children = some [lazyChild1aItem]
    ∧ lazyChild1Expanded.parents = lazyChild1Item.parents
    ∧ lazyChild1Expanded.name = lazyChild1Item.name
    ∧ lazyChild1Expanded.declId = lazyChild1Item.declId
    ∧ List.set [lazyChild1Item, lazyChild2Item] 0 lazyChild1Expanded
        = [lazyChild1Expanded, lazyChild2Item]
    ∧ resolveTypeHierarchy lazyChild1Expanded 1 Direction.Children
        lazyIndex = lazyChild1Expanded :=
  ⟨rfl, rfl, rfl, rfl, rfl, rfl, rfl, rfl, rfl, rfl, rfl⟩

/-- Depth-bounded check that a node's ancestor side is resolved: at
depth zero, the node's own parent list is present; at a successor
depth, the parent list is present and every parent passes the check one
level lower.  A node passes the check at every depth exactly when every
node reachable from it through parents fields has a resolved parent
list. -/
def parentsResolvedToDepth : Nat → TypeHierarchyItem → Bool
  | 0, TypeHierarchyItem.mk _ _ _ _ ps _ _ => ps.isSome
  | n + 1, TypeHierarchyItem.mk _ _ _ _ ps _ _ =>
    match ps with
    | none => false
    | some l => l.all (fun it => parentsResolvedToDepth n it)

/-- Every node the ancestor walk produces has its parent list resolved,
and so do all nodes reachable from it through parents fields. -/
theorem fillSuperTypes_parents_resolved (p : Program) :
    ∀ (fuel : Nat) (d : Decl) (it : TypeHierarchyItem),
      it ∈ fillSuperTypes p fuel d →
      ∀ n : Nat, parentsResolvedToDepth n it = true := by
  intro fuel
  induction fuel with
  | zero =>
    intro d it h
    simp [fillSuperTypes] at h
  | succ f ih =>
    intro d it h n
    simp only [fillSuperTypes] at h
    rcases List.mem_map.mp h with ⟨parent, hmem, hEq⟩
    subst hEq
    cases n with
    | zero => rfl
    | succ m =>
      simp only [parentsResolvedToDepth]
      rw [List.all_eq_true]
      intro x hx
      by_cases hid : parent.id = d.id
      · simp [hid] at hx
      · simp only [hid, if_false] at hx
        exact ih parent x hx m

/-- C2 (amended): in every tree returned by getTypeHierarchy,
regardless of the requested resolve depth, of the query direction and
of the presence of an index, the root node and every node reachable
from it through parents fields has its parent list resolved (possibly
resolved-empty) to the full ancestor depth; nodes introduced on the
children side are not covered and may stay unresolved. -/
theorem c2_ancestor_side_parents_resolved
    (p : Program) (pos resolveLevels : Nat) (dir : Direction)
    (index : Option Index) (it : TypeHierarchyItem)
    (hit : it ∈ getTypeHierarchy p pos resolveLevels dir index)
    (n : Nat) : parentsResolvedToDepth n it = true := by
  simp only [getTypeHierarchy] at hit
  rcases List.mem_map.mp hit with ⟨d, hd, hEq⟩
  subst hEq
  cases n with
  | zero => rfl
  | succ m =>
    simp only [parentsResolvedToDepth]
    rw [List.all_eq_true]
    intro x hx
    exact fillSuperTypes_parents_resolved p _ d x hx m

/-- C2 (counterexample to the claim as stated): in the lazy-resolution
scenario the depth-1 descendant query returns a tree containing the
node for Child1, whose parents field is left unresolved.  So it is not
the case that the parents field of every node in every returned tree is
resolved: nodes on the children side can be unresolved. -/
theorem c2_children_node_parents_unresolved :
    getTypeHierarchy lazyProg 3 1 Direction.Children (some lazyIndex)
      = [lazyRootItem]
    ∧ lazyRootItem.children = some [lazyChild1Item, lazyChild2Item]
    ∧ lazyChild1Item.parents = none :=
  ⟨rfl, rfl, rfl⟩

/-- Expected node for Parent2 of the diamond walk. -/
def dP2Item : TypeHierarchyItem :=
  TypeHierarchyItem.mk "Parent2" DeclKind.Struct 2 22 (some []) none none

/-- Expected node for Parent1 of the diamond walk. -/
def dP1Item : TypeHierarchyItem :=
  TypeHierarchyItem.mk "Parent1" DeclKind.Struct 1 21 (some []) none none

/-- Expected node for Parent3 of the diamond walk. -/
def dP3Item : TypeHierarchyItem :=
  TypeHierarchyItem.mk "Parent3" DeclKind.Struct 3 23 (some [dP2Item])
    none none

/-- Expected root node of the diamond walk at Child. -/
def dChildItem : TypeHierarchyItem :=
  TypeHierarchyItem.mk "Child" DeclKind.Struct 4 24
    (some [dP1Item, dP3Item]) none none

/-- Witness for the amended C2 at the concrete diamond program: the
root the query returns passes the resolvedness check three levels
deep. -/
theorem c2_ancestor_side_resolved_witness :
    parentsResolvedToDepth 3 dChildItem = true :=
  c2_ancestor_side_parents_resolved diamondProg 7 0 Direction.Parents
    none dChildItem
    (by
      have e : getTypeHierarchy diamondProg 7 0 Direction.Parents none
          = [dChildItem] := rfl
      rw [e]
      exact List.mem_singleton.mpr rfl)
    3

/-- C9: the one-level child query returns exactly the direct subtypes
the index reports for the queried node, and every returned child
carries its immediate-parents resolve data populated, with the identity
of the queried node among those parents. -/
theorem c9_subtypes_carry_parents (ix : Index) (it : TypeHierarchyItem) :
    (subTypes it ix).map TypeHierarchyItem.declId
        = (subtypesOf ix it.declId).map Sym.id
    ∧ ∀ c, c ∈ subTypes it ix →
        ∃ l, c.dataParents = some l ∧ it.declId ∈ l := by
  have e2 : subTypes it ix = (subtypesOf ix it.declId).map (fun s =>
      TypeHierarchyItem.mk s.name s.kind s.id s.selRange none none
        (some [it.declId])) := by
    show ((subtypesOf ix it.declId).map (fun s =>
        TypeHierarchyItem.mk s.name s.kind s.id s.selRange none none
          none)).map
        (fun c => c.withDataParents (some [it.declId])) = _
    rw [List.map_map]
    rfl
  constructor
  · rw [e2, List.map_map]
    rfl
  · intro c hc
    rw [e2] at hc
    rcases List.mem_map.mp hc with ⟨s, hs, hEq⟩
    subst hEq
    exact ⟨[it.declId], rfl, List.mem_singleton.mpr rfl⟩

/-! Concrete program and index for the one-level child query: Child
derives from both Parent1 and Parent2; the query is made at Parent1. -/

/-- Indexed symbol for the Child declaration of the one-level
scenario. -/
def stChildSym : Sym := Sym.mk 2 "Child" DeclKind.Struct 92

/-- Index of the one-level scenario: Parent1 and Parent2 are each a
base of Child. -/
def stIndex : Index :=
  Index.mk
    [Sym.mk 0 "Parent1" DeclKind.Struct 90,
      Sym.mk 1 "Parent2" DeclKind.Struct 91, stChildSym]
    [(0, stChildSym), (1, stChildSym)]

/-- Node for Parent1 at which the one-level child query is made. -/
def stRootItem : TypeHierarchyItem :=
  TypeHierarchyItem.mk "Parent1" DeclKind.Struct 0 90 (some []) none none

/-- Expected child node returned by the one-level query: Child, with
resolve data naming the queried node Parent1. -/
def stChildItem : TypeHierarchyItem :=
  TypeHierarchyItem.mk "Child" DeclKind.Struct 2 92 none none (some [0])

/-- Witness for C9 at the concrete one-level scenario: the returned
child for Child carries resolve data containing the queried node's
identity. -/
theorem c9_subtypes_witness :
    ∃ l, stChildItem.dataParents = some l ∧ stRootItem.declId ∈ l :=
  (c9_subtypes_carry_parents stIndex stRootItem).2 stChildItem
    (by
      have e : subTypes stRootItem stIndex = [stChildItem] := rfl
      rw [e]
      exact List.mem_singleton.mpr rfl)

/-- C10: at the invalid implicit instantiation of the self-referential
template, the query does not fail: the walk substitutes the primary
template pattern (displayed as S) for the invalid instantiation, the
reported parent is the pattern rather than the concrete instantiation,
and the walk then terminates under the normal cycle bound. -/
theorem c10_invalid_instantiation_fallback :
    s0inst.valid = false
    ∧ typeParents unboundedProg s0inst = [sPattern]
    ∧ sPattern.templateId = TemplateId.Primary
    ∧ sPattern.displayName = "S"
    ∧ uItem1.name = "S"
    ∧ uItem1.declId = sPattern.id
    ∧ uItem1.declId ≠ s0inst.id
    ∧ (getTypeHierarchy unboundedProg 5 0 Direction.Parents none).length
        = 1
    ∧ uItem1.parents = some [uItem2]
    ∧ uItem2.parents = some ([] : List TypeHierarchyItem) :=
  ⟨rfl, rfl, rfl, rfl, rfl, rfl, by decide, rfl, rfl, rfl⟩

end TypeHierarchyModel
